import Mathlib

/-!
Shallow embedding of two modules of the zato repository:

* `src/code/zato-common/src/zato/common/json_rpc.py` — a JSON-RPC 2.0
  dispatcher (`JSONRPCHandler` with `handle`, `handle_list`,
  `_handle_one_item`) together with its data model (`RequestContext`,
  `ErrorCtx`, `ItemResponse`, `JSONRPCItem`) and error taxonomy.
* `src/code/zato-sso/src/zato/sso/user_search.py` — the SSO user-search
  query builder (`OrderBy`, `SSOSearch`).

Python values that can appear in a decoded JSON message are modelled by the
`Value` inductive; the distinguished `NotGiven` sentinel imported from
`zato.common` is one of its constructors, distinct from `null`.  Raisable
Python code is modelled in the `Except PyExc` monad.
-/

namespace Zato

/-- Model of a decoded Python/JSON value.  The constructor `notGiven` is the
`NotGiven` sentinel object from `zato.common`, used as the default of
`item.get('id', NotGiven)`; it is a distinct plain object, not `None`. -/
inductive Value where
  | null
  | notGiven
  | bool (b : Bool)
  | int (n : Int)
  | str (s : String)
  | list (xs : List Value)
  | obj (kvs : List (String × Value))
deriving Repr

/-- Python truthiness (`bool(v)`): `None` is falsy, numbers are falsy at 0,
strings and containers are falsy when empty; an arbitrary object such as the
`NotGiven` sentinel is truthy. -/
def Value.truthy : Value → Bool
  | .null => false
  | .notGiven => true
  | .bool b => b
  | .int n => n != 0
  | .str s => s != ""
  | .list xs => !xs.isEmpty
  | .obj kvs => !kvs.isEmpty

/-- Test for the `NotGiven` sentinel, i.e. Python `is NotGiven`. -/
def Value.isNotGiven : Value → Bool
  | .notGiven => true
  | _ => false

/-- Test for a Python dict. -/
def Value.isObj : Value → Bool
  | .obj _ => true
  | _ => false

/-- Python `d.get(k, default)` on a dict modelled as an association list:
the first binding of `k` wins, otherwise the default. -/
def lookupD (kvs : List (String × Value)) (k : String) (d : Value) : Value :=
  match kvs.find? (fun p => p.1 == k) with
  | some p => p.2
  | none => d

/-- Key lookup in an object `Value`; `none` when the key is absent or the
value is not an object.  Used only to state properties of envelopes. -/
def Value.lookup? : Value → String → Option Value
  | .obj kvs, k => (kvs.find? (fun p => p.1 == k)).map Prod.snd
  | _, _ => none

/-- Python `v == s` for a string `s`: every comparison performed by the code
modelled here has a string on one side, and in Python a string is `==` only
to an equal string (never to a number, `None`, a container or an arbitrary
object). -/
def pyEqStr : Value → String → Bool
  | .str t, s => t == s
  | _, _ => false

/-- Python `str(v)` as used by `'...{}...'.format(...)` in diagnostic
messages (abbreviated for containers; no claim inspects those cases). -/
def Value.pyStr : Value → String
  | .null => "None"
  | .notGiven => "NotGiven"
  | .bool true => "True"
  | .bool false => "False"
  | .int n => toString n
  | .str s => s
  | .list _ => "[...]"
  | .obj _ => "{...}"

/-- Model of a raised Python exception, as far as the dispatcher inspects
one: `jsonrpc cid code message` covers every instance of the
`JSONRPCException` hierarchy (`isinstance(e, JSONRPCException)` holds, and
`e.code` / `e.message` are read); `other name text` covers every other
exception (`AttributeError`, `ValueError`, whatever the backend raises). -/
inductive PyExc where
  | jsonrpc (cid : String) (code : Int) (message : String)
  | other (name : String) (text : String)
deriving Repr

/-- Supported protocol version: `json_rpc_version_supported = '2.0'`. -/
def json_rpc_version_supported : String := "2.0"

/-- Model of `ErrorCtx`: correlation id, numeric error code, message. -/
structure ErrorCtx where
  cid : String
  code : Int
  message : String
deriving Repr

/-- Serialization `ErrorCtx.to_dict`: `{code, message, data: {ctx: {cid}}}`. -/
def ErrorCtx.to_dict (e : ErrorCtx) : Value :=
  .obj [("code", .int e.code),
        ("message", .str e.message),
        ("data", .obj [("ctx", .obj [("cid", .str e.cid)])])]

/-- Model of `ItemResponse`, the per-item response being built.  Its
`__init__` sets every slot to `None`: `id` and `result` start as `null`,
`error` as `none`. -/
structure ItemResponse where
  id : Value := .null
  cid : Value := .null
  error : Option ErrorCtx := none
  result : Value := .null
deriving Repr

/-- Serialization `ItemResponse.to_dict`: emits `jsonrpc` and `id`, then
branches on the truthiness of `self.result` — a truthy result gives a result
envelope, otherwise `self.error.to_dict()` is called, which raises
`AttributeError` when `error` is still `None`. -/
def ItemResponse.to_dict (r : ItemResponse) : Except PyExc Value :=
  if r.result.truthy then
    .ok (.obj [("jsonrpc", .str json_rpc_version_supported),
               ("id", r.id),
               ("result", r.result)])
  else
    match r.error with
    | some e =>
        .ok (.obj [("jsonrpc", .str json_rpc_version_supported),
                   ("id", r.id),
                   ("error", e.to_dict)])
    | none => .error (.other "AttributeError"
        "NoneType object has no attribute to_dict")

/-- Model of `JSONRPCItem`: one parsed JSON-RPC request. -/
structure JSONRPCItem where
  jsonrpc : Value
  method : Value
  params : Value
  id : Value
  needs_response : Bool
deriving Repr

/-- Parsing `JSONRPCItem.from_dict`: key lookups with defaults; `id`
defaults to the `NotGiven` sentinel and `needs_response = out.id is not
NotGiven`.  On a non-dict the first `item.get` raises `AttributeError`. -/
def JSONRPCItem.from_dict (item : Value) : Except PyExc JSONRPCItem :=
  match item with
  | .obj kvs =>
      .ok { jsonrpc := lookupD kvs "jsonrpc" .null
            id := lookupD kvs "id" .notGiven
            method := lookupD kvs "method" .null
            params := lookupD kvs "params" .null
            needs_response := !(lookupD kvs "id" .notGiven).isNotGiven }
  | _ => .error (.other "AttributeError" "object has no attribute get")

/-- Model of `RequestContext`: correlation id, original raw message (used
only in diagnostics), decoded message. -/
structure RequestContext where
  cid : String
  orig_message : String
  message : Value

/-- Handler configuration: the `service_whitelist` collection and the
configured handler `name` (the latter only appears in log lines). -/
structure HandlerConfig where
  service_whitelist : List String
  name : String

/-- Behaviour of the `invoke_func` collaborator: given `item.method` and
`item.params` it either returns a value or raises. -/
def InvokeFunc : Type := Value → Value → Except PyExc Value

/-- Predicate `JSONRPCHandler.can_handle`:
`method in self.config['service_whitelist']`, Python membership by `==`. -/
def can_handle (cfg : HandlerConfig) (method : Value) : Bool :=
  cfg.service_whitelist.any (fun s => pyEqStr method s)

/-- Diagnostic text of the `InvalidRequest` raised on a version mismatch. -/
def invalidVersionMsg (jsonrpc : Value) (orig_message : String) : String :=
  "Unsupported JSON-RPC version `" ++ jsonrpc.pyStr ++ "` in `" ++
    orig_message ++ "`"

/-- Diagnostic text of the `MethodNotFound` raised on a whitelist miss. -/
def methodNotFoundMsg (method : Value) (orig_message : String) : String :=
  "Method not supported `" ++ method.pyStr ++ "` in `" ++ orig_message ++ "`"

/-- Body of the `try:` block of `JSONRPCHandler._handle_one_item`, step by
step.  On an exception the result is `error (e, out)` where `out` is the
state of the local `ItemResponse` at the moment of the raise (the `except`
clause closes over it).  Code `-32600` is `InvalidRequest.code`, `-32601` is
`MethodNotFound.code`. -/
def handleOneItemAux (cfg : HandlerConfig) (invoke : InvokeFunc)
    (cid : String) (message : Value) (orig_message : String) :
    Except (PyExc × ItemResponse) (Option Value) :=
  let out : ItemResponse := {}
  match JSONRPCItem.from_dict message with
  | .error e => .error (e, out)
  | .ok item =>
    let out := { out with id := item.id }
    if !pyEqStr item.jsonrpc json_rpc_version_supported then
      .error (.jsonrpc cid (-32600) (invalidVersionMsg item.jsonrpc orig_message), out)
    else if !can_handle cfg item.method then
      .error (.jsonrpc cid (-32601) (methodNotFoundMsg item.method orig_message), out)
    else
      match invoke item.method item.params with
      | .error e => .error (e, out)
      | .ok service_response =>
        let out := { out with result := service_response }
        if item.needs_response then
          match out.to_dict with
          | .ok v => .ok (some v)
          | .error e => .error (e, out)
        else
          .ok none

/-- Dispatcher method `JSONRPCHandler._handle_one_item`: run the `try:`
block; on an exception the `except Exception` clause builds an `ErrorCtx`
(copying `e.code` / `e.message` for `JSONRPCException` instances, else
`-32000` with the fixed generic message), stores it on `out` and returns
`out.to_dict()`.  A raise out of the `except` clause itself would escape the
method, hence the `Except` result type. -/
def _handle_one_item (cfg : HandlerConfig) (invoke : InvokeFunc)
    (cid : String) (message : Value) (orig_message : String) :
    Except PyExc (Option Value) :=
  match handleOneItemAux cfg invoke cid message orig_message with
  | .ok r => .ok r
  | .error (e, out) =>
      let ec : ErrorCtx :=
        match e with
        | .jsonrpc _ code msg => { cid := cid, code := code, message := msg }
        | .other _ _ =>
            { cid := cid, code := -32000, message := "Message could not be handled" }
      let out := { out with error := some ec }
      (out.to_dict).map some

/-- Dispatcher method `JSONRPCHandler.handle_one_item`: delegates to
`_handle_one_item` with the fields of the request context. -/
def handle_one_item (cfg : HandlerConfig) (invoke : InvokeFunc)
    (ctx : RequestContext) : Except PyExc (Option Value) :=
  _handle_one_item cfg invoke ctx.cid ctx.message ctx.orig_message

/-- Dispatcher method `JSONRPCHandler.handle_list`: `for item in
ctx.message: out.append(self._handle_one_item(...))` — items processed in
input order; an escaping exception would abort the loop. -/
def handle_list (cfg : HandlerConfig) (invoke : InvokeFunc)
    (cid : String) (orig_message : String) :
    List Value → Except PyExc (List (Option Value))
  | [] => .ok []
  | item :: rest =>
      match _handle_one_item cfg invoke cid item orig_message with
      | .error e => .error e
      | .ok r =>
          match handle_list cfg invoke cid orig_message rest with
          | .error e => .error e
          | .ok rs => .ok (r :: rs)

/-- Result shape of `JSONRPCHandler.handle`: one envelope-or-nothing for a
single message, a list of envelope-or-nothing for a batch. -/
inductive HandleResult where
  | single (r : Option Value)
  | batch (rs : List (Option Value))
deriving Repr

/-- Dispatcher method `JSONRPCHandler.handle`: branches on
`isinstance(ctx.message, list)`. -/
def handle (cfg : HandlerConfig) (invoke : InvokeFunc)
    (ctx : RequestContext) : Except PyExc HandleResult :=
  match ctx.message with
  | .list items =>
      (handle_list cfg invoke ctx.cid ctx.orig_message items).map .batch
  | _ => (handle_one_item cfg invoke ctx).map .single

/-- Outcome of one item as observed through the containment boundary: the
envelope (or `none`) that `_handle_one_item` returns when no exception
escapes it. -/
def itemOutcome (cfg : HandlerConfig) (invoke : InvokeFunc)
    (cid : String) (message : Value) (orig_message : String) : Option Value :=
  match _handle_one_item cfg invoke cid message orig_message with
  | .ok r => r
  | .error _ => none

/-- Shape of every error envelope the dispatcher emits: `jsonrpc`, the
echoed `id`, and the serialized `ErrorCtx`. -/
def mkErrorEnvelope (id : Value) (cid : String) (code : Int) (msg : String) : Value :=
  .obj [("jsonrpc", .str json_rpc_version_supported),
        ("id", id),
        ("error", ErrorCtx.to_dict { cid := cid, code := code, message := msg })]

/-- Shape of every success envelope the dispatcher emits. -/
def mkResultEnvelope (id : Value) (result : Value) : Value :=
  .obj [("jsonrpc", .str json_rpc_version_supported),
        ("id", id),
        ("result", result)]

/-- Error code the `except` clause selects: `e.code` for `JSONRPCException`
instances, else the generic fallback `-32000`. -/
def exCode : PyExc → Int
  | .jsonrpc _ c _ => c
  | .other _ _ => -32000

/-- Error message the `except` clause selects: `e.message` for
`JSONRPCException` instances, else the fixed generic message. -/
def exMsg : PyExc → String
  | .jsonrpc _ _ m => m
  | .other _ _ => "Message could not be handled"

/-! Embedding of `src/code/zato-sso/src/zato/sso/user_search.py`.  The
SQLAlchemy expressions a search builds are modelled as an AST (`SqlExpr`,
`OrderByItem`); the session and the `util_search` collaborator are out of
scope, so `SSOSearch.search` is modelled as producing the pair of clauses it
hands to `util_search`. -/

/-- Direction marker produced by the SQLAlchemy `asc` / `desc` helpers. -/
inductive SqlDir where
  | asc
  | desc
deriving Repr

/-- One entry of an ORDER BY clause: `asc(col)` or `desc(col)`. -/
structure OrderByItem where
  dir : SqlDir
  col : Value
deriving Repr

/-- Model of a SQLAlchemy filter expression as built by `SSOSearch`:
`column.__eq__(v)`, `column.contains(s)`, `and_(*xs)`, `or_(*xs)`. -/
inductive SqlExpr where
  | colEq (col : String) (v : Value)
  | colContains (col : String) (s : String)
  | sqlAnd (xs : List SqlExpr)
  | sqlOr (xs : List SqlExpr)
deriving Repr

/-- Model of the `OrderBy` class.  Its `__init__` defines exactly the
attributes `asc`, `desc`, `dir_allowed`, `out_columns_allowed` and
`default` — note there is no attribute named `columns_allowed`. -/
structure OrderBy where
  asc : String
  desc : String
  dir_allowed : List String
  out_columns_allowed : List String
  default : List OrderByItem
deriving Repr

/-- Instance state `OrderBy()` as built by `OrderBy.__init__`. -/
def orderByInstance : OrderBy :=
  { asc := "asc"
    desc := "desc"
    dir_allowed := ["asc", "desc"]
    out_columns_allowed := ["display_name", "username", "sign_up_time", "user_id"]
    default := [⟨.asc, .str "display_name"⟩, ⟨.asc, .str "username"⟩,
                ⟨.asc, .str "sign_up_time"⟩, ⟨.asc, .str "user_id"⟩] }

/-- Heterogeneous result of a Python attribute read on an `OrderBy`
instance. -/
inductive OrderByAttr where
  | strA (s : String)
  | setA (ss : List String)
  | listA (l : List OrderByItem)
deriving Repr

/-- Python `getattr` on an `OrderBy` instance: the five attributes assigned
by `__init__` resolve to their values, any other name raises
`AttributeError`. -/
def OrderBy.getattr (o : OrderBy) (name : String) : Except PyExc OrderByAttr :=
  if name = "asc" then .ok (.strA o.asc)
  else if name = "desc" then .ok (.strA o.desc)
  else if name = "dir_allowed" then .ok (.setA o.dir_allowed)
  else if name = "out_columns_allowed" then .ok (.setA o.out_columns_allowed)
  else if name = "default" then .ok (.listA o.default)
  else .error (.other "AttributeError"
    ("OrderBy instance has no attribute " ++ name))

/-- Python `v in attr` for an attribute value: membership in a set of
strings holds only for an equal string. -/
def OrderByAttr.containsVal : OrderByAttr → Value → Bool
  | .setA ss, .str s => ss.contains s
  | _, _ => false

/-- Python `v == attr` where the attribute is the string `'asc'`. -/
def OrderByAttr.eqVal : OrderByAttr → Value → Bool
  | .strA s, v => pyEqStr v s
  | _, _ => false

/-- Python `config.get(k)` — the config must be a dict, missing keys give
`None`. -/
def pyGet (config : Value) (k : String) : Except PyExc Value :=
  match config with
  | .obj kvs => .ok (lookupD kvs k .null)
  | _ => .error (.other "AttributeError" "object has no attribute get")

/-- Python `config.get(k, _does_not_exist)` — `none` marks a truly absent
key, as the `_does_not_exist` sentinel does in the source. -/
def pyGetOpt (config : Value) (k : String) : Except PyExc (Option Value) :=
  match config with
  | .obj kvs => .ok ((kvs.find? (fun p => p.1 == k)).map Prod.snd)
  | _ => .error (.other "AttributeError" "object has no attribute get")

/-- Python `k in config` on a dict: key membership. -/
def pyHasKey (config : Value) (k : String) : Except PyExc Bool :=
  match config with
  | .obj kvs => .ok (kvs.any (fun p => p.1 == k))
  | _ => .error (.other "TypeError" "argument is not iterable")

/-- Python `for item in v`: lists yield their items, dicts their keys,
strings their characters; other values raise `TypeError`. -/
def pyIter : Value → Except PyExc (List Value)
  | .list xs => .ok xs
  | .obj kvs => .ok (kvs.map (fun p => .str p.1))
  | .str s => .ok (s.toList.map (fun c => .str (String.mk [c])))
  | v => .error (.other "TypeError" ("object is not iterable: " ++ v.pyStr))

/-- Loop body of `SSOSearch._get_order_by`: each entry must be a dict with
exactly one `column: direction` pair; the column is then tested against
`self.order_by.columns_allowed` — an attribute `OrderBy.__init__` never
defines (it defines `out_columns_allowed`), so reaching that test raises
`AttributeError`. -/
def getOrderByLoop (ob : OrderBy) : List Value → Except PyExc (List OrderByItem)
  | [] => .ok []
  | item :: rest =>
      match item with
      | .obj kvs =>
          match kvs with
          | [(column, dir)] =>
              match ob.getattr "columns_allowed" with
              | .error e => .error e
              | .ok columns_allowed =>
                  if !columns_allowed.containsVal (.str column) then
                    .error (.other "ValueError"
                      ("Invalid order_by column `" ++ column ++ "`"))
                  else
                    match ob.getattr "dir_allowed" with
                    | .error e => .error e
                    | .ok dirs_allowed =>
                        if !dirs_allowed.containsVal dir then
                          .error (.other "ValueError"
                            ("Invalid order_by dir `" ++ dir.pyStr ++ "`"))
                        else
                          match ob.getattr "asc" with
                          | .error e => .error e
                          | .ok ascAttr =>
                              let d := if ascAttr.eqVal dir then SqlDir.asc
                                       else SqlDir.desc
                              match getOrderByLoop ob rest with
                              | .error e => .error e
                              | .ok out => .ok (⟨d, .str column⟩ :: out)
          | _ => .error (.other "ValueError" "Invalid order_by config")
      | _ => .error (.other "AttributeError" "object has no attribute items")

/-- Method `SSOSearch._get_order_by`: iterate the user-supplied `order_by`
configuration and build the ORDER BY clause. -/
def _get_order_by (ob : OrderBy) (order_by : Value) : Except PyExc (List OrderByItem) :=
  match pyIter order_by with
  | .error e => .error e
  | .ok items => getOrderByLoop ob items

/-- Method `SSOSearch._get_where_user_id`: `SSOUser.user_id.__eq__`. -/
def _get_where_user_id (user_id : Value) : SqlExpr :=
  .colEq "user_id" user_id

/-- Method `SSOSearch._get_where_username`: `SSOUser.username.__eq__`. -/
def _get_where_username (username : Value) : SqlExpr :=
  .colEq "username" username

/-- Mapping `self.name_columns`: publicly visible name keys to the
upper-cased SQL columns. -/
def name_columns : List (String × String) :=
  [("display_name", "display_name_upper"),
   ("first_name", "first_name_upper"),
   ("middle_name", "middle_name_upper"),
   ("last_name", "last_name_upper")]

/-- Modelled from the spec: the name-operator constants
(`const.search.and_` and `const.search.or_` from `zato.sso`, whose module is
not under `src/`) are two distinct labels; `name_op_allowed =
set(const.search())` contains exactly them, and `name_op_sa` maps them to
the SQLAlchemy `and_` / `or_` combinators. -/
def name_op_and : String := "and"

/-- Modelled from the spec: the second name-operator constant, see
`name_op_and`. -/
def name_op_or : String := "or"

/-- Set `name_op_allowed` of acceptable name operators. -/
def name_op_allowed : List String := [name_op_and, name_op_or]

/-- Dict key semantics of `self._name_column_op[(column, name_exact)]`: its
keys pair each column with `True` or `False`, and a Python dict lookup finds
a key through `==`, under which `True == 1` and `False == 0`. -/
def pyBoolKey : Value → Option Bool
  | .bool b => some b
  | .int n => if n == 1 then some true else if n == 0 then some false else none
  | _ => none

/-- Validation loop of `SSOSearch._get_where_name` over the `name` dict:
only known column keys, only nonempty strings; collects
`(sql_column, value.strip().upper())` pairs in input order. -/
def nameCriteriaRaw : List (String × Value) → Except PyExc (List (String × String))
  | [] => .ok []
  | (column_key, v) :: rest =>
      match name_columns.find? (fun p => p.1 == column_key) with
      | none => .error (.other "ValueError"
          ("Invalid name key `" ++ column_key ++ "`"))
      | some p =>
          match v with
          | .str s =>
              let s := s.trim
              if s == "" then
                .error (.other "ValueError"
                  ("Value must not be empty, key `" ++ column_key ++ "`"))
              else
                match nameCriteriaRaw rest with
                | .error e => .error e
                | .ok tl => .ok ((p.2, s.toUpper) :: tl)
          | w => .error (.other "ValueError" ("Invalid value `" ++ w.pyStr ++ "`"))

/-- Lookup `self._name_column_op[(column, name_exact)]` applied to each
collected criterion: exact matches become `__eq__`, inexact ones
`contains`; a `name_exact` that is neither a bool nor `0`/`1` misses every
dict key (`KeyError`). -/
def nameCriteriaOps (raw : List (String × String)) (name_exact : Value) :
    Except PyExc (List SqlExpr) :=
  match pyBoolKey name_exact with
  | none => .error (.other "KeyError" "name_exact is not a dict key")
  | some exact =>
      .ok (raw.map (fun p =>
        if exact then SqlExpr.colEq p.1 (.str p.2) else SqlExpr.colContains p.1 p.2))

/-- Method `SSOSearch._get_where_name`: validates the `name` dict, resolves
the name operator (defaulting to `and_`), and joins the per-column criteria
with it; yields `none` when no criteria were collected. -/
def _get_where_name (name : Value) (name_exact : Value) (name_op : Value) :
    Except PyExc (Option SqlExpr) :=
  match name with
  | .obj kvs =>
      match nameCriteriaRaw kvs with
      | .error e => .error e
      | .ok raw =>
          match (if name_op.truthy then
                   (if name_op_allowed.any (fun s => pyEqStr name_op s) then
                      Except.ok name_op
                    else
                      Except.error (PyExc.other "ValueError"
                        ("Invalid name_op `" ++ name_op.pyStr ++ "`")))
                 else Except.ok (Value.str name_op_and)) with
          | .error e => .error e
          | .ok opv =>
              match (if pyEqStr opv name_op_and then some true
                     else if pyEqStr opv name_op_or then some false
                     else none) with
              | none => .error (.other "KeyError" "name_op is not a dict key")
              | some isAnd =>
                  if raw.isEmpty then .ok none
                  else
                    match nameCriteriaOps raw name_exact with
                    | .error e => .error e
                    | .ok crit =>
                        .ok (some (if isAnd then .sqlAnd crit else .sqlOr crit))
  | w => .error (.other "ValueError" ("Invalid name `" ++ w.pyStr ++ "`"))

/-- Columns of `self._non_name_column_op`, in definition order. -/
def non_name_columns : List String := ["email", "sign_up_status", "approval_status"]

/-- Loop of `SSOSearch._get_where_non_name` over the non-name columns: a key
present in the config (even mapped to `None`) contributes an `__eq__`
criterion; a present value that is neither `None` nor a string is
rejected. -/
def nonNameLoop (config : Value) : List String → Except PyExc (List SqlExpr)
  | [] => .ok []
  | key :: rest =>
      match pyGetOpt config key with
      | .error e => .error e
      | .ok none => nonNameLoop config rest
      | .ok (some v) =>
          match v with
          | .null =>
              match nonNameLoop config rest with
              | .error e => .error e
              | .ok tl => .ok (SqlExpr.colEq key v :: tl)
          | .str _ =>
              match nonNameLoop config rest with
              | .error e => .error e
              | .ok tl => .ok (SqlExpr.colEq key v :: tl)
          | w => .error (.other "ValueError" ("Invalid value `" ++ w.pyStr ++ "`"))

/-- Method `SSOSearch._get_where_non_name`: email search must be enabled if
an email is given; the collected criteria are AND-joined, `none` when there
are none. -/
def _get_where_non_name (config : Value) : Except PyExc (Option SqlExpr) :=
  match pyGet config "email" with
  | .error e => .error e
  | .ok email =>
      match (if email.truthy then
               match pyGet config "email_search_enabled" with
               | .error e => Except.error e
               | .ok ese =>
                   if !ese.truthy then
                     Except.error (PyExc.other "ValueError" "Cannot look up users by email")
                   else Except.ok ()
             else Except.ok ()) with
      | .error e => .error e
      | .ok _ =>
          match nonNameLoop config non_name_columns with
          | .error e => .error e
          | .ok crit =>
              if crit.isEmpty then .ok none else .ok (some (.sqlAnd crit))

/-- Method `SSOSearch._get_where`: a truthy `user_id` (first) or `username`
short-circuits; otherwise name and non-name criteria are combined.  When
neither produces a condition, the `return where` line reads a local that was
never assigned — `UnboundLocalError`. -/
def _get_where (config : Value) : Except PyExc SqlExpr :=
  match pyGet config "username" with
  | .error e => .error e
  | .ok username =>
  match pyGet config "user_id" with
  | .error e => .error e
  | .ok user_id =>
  if username.truthy || user_id.truthy then
    if user_id.truthy then .ok (_get_where_user_id user_id)
    else .ok (_get_where_username username)
  else
    match pyHasKey config "name" with
    | .error e => .error e
    | .ok hasName =>
    match (if hasName then
             match pyGet config "name", pyGet config "name_exact", pyGet config "name_op" with
             | .ok n, .ok ne, .ok no => _get_where_name n ne no
             | .error e, _, _ => Except.error e
             | _, .error e, _ => Except.error e
             | _, _, .error e => Except.error e
           else Except.ok Option.none) with
    | .error e => .error e
    | .ok name_where =>
    match _get_where_non_name config with
    | .error e => .error e
    | .ok non_name_where =>
    match name_where, non_name_where with
    | some nw, none => .ok nw
    | some nw, some nnw => .ok (.sqlAnd [nw, nnw])
    | none, some nnw => .ok nnw
    | none, none =>
        .error (.other "UnboundLocalError"
          "local variable where referenced before assignment")

/-- Pair of clauses `SSOSearch.search` hands to the `util_search`
collaborator: the query it produces. -/
structure SearchQuery where
  order_by : List OrderByItem
  whereClause : SqlExpr
deriving Repr

/-- Method `SSOSearch.search`: build the WHERE clause, then the ORDER BY
clause — `self._get_order_by(order_by) if order_by else
self.order_by.default` — and hand both to `util_search`. -/
def SSOSearch.search (config : Value) : Except PyExc SearchQuery :=
  match _get_where config with
  | .error e => .error e
  | .ok w =>
      match pyGet config "order_by" with
      | .error e => .error e
      | .ok ob_raw =>
          match (if ob_raw.truthy then _get_order_by orderByInstance ob_raw
                 else Except.ok orderByInstance.default) with
          | .error e => .error e
          | .ok ob => .ok { order_by := ob, whereClause := w }

/-! Derived characterizations used by the theorems below. -/

/-- Functional characterization of the complete per-item flow of
`_handle_one_item`, with the `try`/`except` control flow resolved: every
failure of the body surfaces as the corresponding error envelope, a truthy
result of a non-notification as a result envelope, a falsy result of a
non-notification as the generic `-32000` error envelope (its serialization
takes the error branch), and a successful notification as no output. -/
def handleOneItemSpec (cfg : HandlerConfig) (invoke : InvokeFunc)
    (cid : String) (message : Value) (orig_message : String) : Option Value :=
  match JSONRPCItem.from_dict message with
  | .error e => some (mkErrorEnvelope .null cid (exCode e) (exMsg e))
  | .ok item =>
    if !pyEqStr item.jsonrpc json_rpc_version_supported then
      some (mkErrorEnvelope item.id cid (-32600)
        (invalidVersionMsg item.jsonrpc orig_message))
    else if !can_handle cfg item.method then
      some (mkErrorEnvelope item.id cid (-32601)
        (methodNotFoundMsg item.method orig_message))
    else
      match invoke item.method item.params with
      | .error e => some (mkErrorEnvelope item.id cid (exCode e) (exMsg e))
      | .ok v =>
          if item.needs_response then
            if v.truthy then some (mkResultEnvelope item.id v)
            else some (mkErrorEnvelope item.id cid (-32000)
              "Message could not be handled")
          else none

/-! Concrete example inputs used by witnesses and counterexamples. -/

/-- Example handler configuration whitelisting the single method `m`. -/
def cfgEx : HandlerConfig := { service_whitelist := ["m"], name := "handler" }

/-- Backend collaborator that returns `42` for every invocation. -/
def invokeOk : InvokeFunc := fun _ _ => .ok (.int 42)

/-- Backend collaborator that raises a `ValueError` for every invocation. -/
def invokeRaises : InvokeFunc := fun _ _ => .error (.other "ValueError" "boom")

/-- Backend collaborator that returns the falsy `None` for every
invocation. -/
def invokeFalsy : InvokeFunc := fun _ _ => .ok .null

/-- Fields of an example request with id `1` for method `m`. -/
def reqKvs1 : List (String × Value) :=
  [("jsonrpc", .str "2.0"), ("method", .str "m"), ("id", .int 1)]

/-- Example request with id `1` for method `m`. -/
def reqId1 : Value := .obj reqKvs1

/-- Fields of an example notification (no `id` key) for method `m`. -/
def notifKvs : List (String × Value) :=
  [("jsonrpc", .str "2.0"), ("method", .str "m")]

/-- Fields of a request with an unsupported version and no other key. -/
def badVerKvs : List (String × Value) := [("jsonrpc", .str "1.0")]

/-- Fields of an unsupported-version request carrying a whitelisted method
and an id. -/
def badVerKvs2 : List (String × Value) :=
  [("jsonrpc", .str "1.0"), ("method", .str "m"), ("id", .int 2)]

/-- Exception the version check raises on `badVerKvs` under cid `cid1` and
original message `orig`. -/
def badVerExc : PyExc := .jsonrpc "cid1" (-32600) (invalidVersionMsg (.str "1.0") "orig")

/-- An unrecognized backend exception. -/
def excBoom : PyExc := .other "ValueError" "boom"

/-- Request context carrying the single request `reqId1`. -/
def ctxSingleEx : RequestContext :=
  { cid := "cid1", orig_message := "orig", message := reqId1 }

/-- Example batch: a good item, a bad-version item and a notification. -/
def itemsEx : List Value := [reqId1, .obj badVerKvs2, .obj notifKvs]

/-- Request context carrying the batch `itemsEx`. -/
def ctxBatchEx : RequestContext :=
  { cid := "cid1", orig_message := "orig", message := .list itemsEx }

/-- Search configuration with a non-empty `order_by` list. -/
def cfgW1 : Value :=
  .obj [("order_by", .list [.obj [("display_name", .str "asc")]])]

/-- Search configuration selecting by username, without `order_by`. -/
def cfgW2 : Value := .obj [("username", .str "u")]

/-! Theorems. -/

/-- Serialization can only raise when the result slot is falsy and no error
context has been attached. -/
theorem to_dict_error_shape (r : ItemResponse) (e : PyExc)
    (h : r.to_dict = .error e) : r.result.truthy = false ∧ r.error = none := by
  unfold ItemResponse.to_dict at h
  by_cases ht : r.result.truthy
  · simp [ht] at h
  · cases he : r.error with
    | some ec => simp [ht, he] at h
    | none => exact ⟨by simpa using ht, rfl⟩

/-- The dispatcher's per-item method equals its functional
characterization: in particular it returns normally on every input and
every backend behaviour. -/
theorem handle_one_item_eq_spec (cfg : HandlerConfig) (invoke : InvokeFunc)
    (cid : String) (message : Value) (orig_message : String) :
    _handle_one_item cfg invoke cid message orig_message =
      Except.ok (handleOneItemSpec cfg invoke cid message orig_message) := by
  cases message <;> try rfl
  case obj kvs =>
    simp only [_handle_one_item, handleOneItemAux, handleOneItemSpec,
      JSONRPCItem.from_dict]
    by_cases hv : pyEqStr (lookupD kvs "jsonrpc" Value.null) json_rpc_version_supported
    case neg =>
      simp [hv, ItemResponse.to_dict, Value.truthy, mkErrorEnvelope,
        ErrorCtx.to_dict, exCode, exMsg, Except.map]
    case pos =>
      by_cases hm : can_handle cfg (lookupD kvs "method" Value.null)
      case neg =>
        simp [hv, hm, ItemResponse.to_dict, Value.truthy, mkErrorEnvelope,
          ErrorCtx.to_dict, exCode, exMsg, Except.map]
      case pos =>
        cases hinv : invoke (lookupD kvs "method" Value.null) (lookupD kvs "params" Value.null) with
        | error e =>
            cases e <;>
              simp [hv, hm, hinv, ItemResponse.to_dict, Value.truthy,
                mkErrorEnvelope, ErrorCtx.to_dict, exCode, exMsg, Except.map]
        | ok v =>
            by_cases hnr : (lookupD kvs "id" Value.notGiven).isNotGiven
            case pos => simp [hv, hm, hinv, hnr]
            case neg =>
              by_cases htr : v.truthy
              case pos =>
                simp [hv, hm, hinv, hnr, htr, ItemResponse.to_dict, mkResultEnvelope]
              case neg =>
                simp [hv, hm, hinv, hnr, htr, ItemResponse.to_dict,
                  mkErrorEnvelope, ErrorCtx.to_dict, exCode, exMsg, Except.map]

/-- Per-item outcome seen by callers, as the functional characterization. -/
theorem itemOutcome_eq_spec (cfg : HandlerConfig) (invoke : InvokeFunc)
    (cid : String) (message : Value) (orig_message : String) :
    itemOutcome cfg invoke cid message orig_message =
      handleOneItemSpec cfg invoke cid message orig_message := by
  unfold itemOutcome
  rw [handle_one_item_eq_spec]

/-- Batch loop: the collected list is exactly the map of the per-item
characterization over the input items, in input order. -/
theorem handle_list_eq_map (cfg : HandlerConfig) (invoke : InvokeFunc)
    (cid : String) (orig_message : String) (items : List Value) :
    handle_list cfg invoke cid orig_message items =
      Except.ok (items.map
        (fun it => handleOneItemSpec cfg invoke cid it orig_message)) := by
  induction items with
  | nil => rfl
  | cons it rest ih => simp [handle_list, handle_one_item_eq_spec, ih]

/-- Whenever the `try:` body raises, the captured `ItemResponse` still has a
falsy result slot and no error context, and its `id` slot holds the parsed
item's id for a dict message and the initial `None` otherwise. -/
theorem aux_error_out (cfg : HandlerConfig) (invoke : InvokeFunc)
    (cid : String) (msg : Value) (orig : String) (e : PyExc) (out : ItemResponse)
    (h : handleOneItemAux cfg invoke cid msg orig = .error (e, out)) :
    out.result.truthy = false ∧ out.error = none ∧
    (∀ kvs, msg = .obj kvs → out.id = lookupD kvs "id" .notGiven) ∧
    (msg.isObj = false → out.id = .null) := by
  cases msg <;>
    simp only [handleOneItemAux, JSONRPCItem.from_dict, Except.error.injEq,
      Prod.mk.injEq] at h
  case null | notGiven | bool b | int n | str s | list xs =>
    obtain ⟨-, rfl⟩ := h
    exact ⟨rfl, rfl, fun kvs hk => Value.noConfusion hk, fun _ => rfl⟩
  case obj kvs =>
    split at h
    case isTrue =>
      obtain ⟨-, rfl⟩ := h
      exact ⟨rfl, rfl, fun kvs' hk => by injection hk with h2; subst h2; rfl,
        fun hno => Bool.noConfusion hno⟩
    case isFalse =>
      split at h
      case isTrue =>
        obtain ⟨-, rfl⟩ := h
        exact ⟨rfl, rfl, fun kvs' hk => by injection hk with h2; subst h2; rfl,
          fun hno => Bool.noConfusion hno⟩
      case isFalse =>
        split at h
        case h_1 e0 hinv =>
          obtain ⟨-, rfl⟩ := h
          exact ⟨rfl, rfl, fun kvs' hk => by injection hk with h2; subst h2; rfl,
            fun hno => Bool.noConfusion hno⟩
        case h_2 v hinv =>
          split at h
          case isTrue =>
            split at h
            case h_1 => simp at h
            case h_2 e0 hdict =>
              obtain ⟨-, rfl⟩ := h
              exact ⟨(to_dict_error_shape _ _ hdict).1, rfl,
                fun kvs' hk => by injection hk with h2; subst h2; rfl,
                fun hno => Bool.noConfusion hno⟩
          case isFalse => simp at h

/-- Whenever the `try:` body raises, `_handle_one_item` converts the
exception into the corresponding error envelope built around the captured
response state. -/
theorem handle_one_item_error_path (cfg : HandlerConfig) (invoke : InvokeFunc)
    (cid : String) (msg : Value) (orig : String) (e : PyExc) (out : ItemResponse)
    (h : handleOneItemAux cfg invoke cid msg orig = .error (e, out)) :
    _handle_one_item cfg invoke cid msg orig =
      Except.ok (some (mkErrorEnvelope out.id cid (exCode e) (exMsg e))) := by
  have hshape := aux_error_out cfg invoke cid msg orig e out h
  unfold _handle_one_item
  rw [h]
  cases e <;>
    simp [ItemResponse.to_dict, hshape.1, mkErrorEnvelope, ErrorCtx.to_dict,
      exCode, exMsg, Except.map]

/-- C1: for every batch input, `handle` returns the list of per-item
outcomes mapped over the input items — positionally aligned with input
order, with `none` entries for successful notifications, each entry a
function of that item alone (so no item's failure can change, suppress or
abort any other item's entry). -/
theorem C1_batch_alignment_and_isolation (cfg : HandlerConfig)
    (invoke : InvokeFunc) (ctx : RequestContext) (items : List Value)
    (h : ctx.message = .list items) :
    handle cfg invoke ctx =
      Except.ok (HandleResult.batch (items.map
        (fun it => itemOutcome cfg invoke ctx.cid it ctx.orig_message))) := by
  unfold handle
  rw [h]
  simp [handle_list_eq_map, itemOutcome_eq_spec, Except.map]

/-- Witness for C1 at a concrete three-item batch. -/
theorem C1_batch_alignment_and_isolation_witness :
    handle cfgEx invokeOk ctxBatchEx =
      Except.ok (HandleResult.batch (itemsEx.map
        (fun it => itemOutcome cfgEx invokeOk ctxBatchEx.cid it
          ctxBatchEx.orig_message))) :=
  C1_batch_alignment_and_isolation cfgEx invokeOk ctxBatchEx itemsEx rfl

/-- C2: for every input and every behaviour of the invoke collaborator,
`handle` and `_handle_one_item` return normally (no exception escapes), and
every failure raised inside the per-item body is converted into an
`ErrorCtx`-bearing error envelope. -/
theorem C2_exceptions_contained (cfg : HandlerConfig) (invoke : InvokeFunc)
    (ctx : RequestContext) :
    (∃ r, handle cfg invoke ctx = Except.ok r) ∧
    (∀ cid msg orig, ∃ r, _handle_one_item cfg invoke cid msg orig = Except.ok r) ∧
    (∀ cid msg orig e out,
        handleOneItemAux cfg invoke cid msg orig = Except.error (e, out) →
        _handle_one_item cfg invoke cid msg orig =
          Except.ok (some (mkErrorEnvelope out.id cid (exCode e) (exMsg e)))) := by
  refine ⟨?_, fun cid msg orig => ⟨_, handle_one_item_eq_spec cfg invoke cid msg orig⟩,
    fun cid msg orig e out h =>
      handle_one_item_error_path cfg invoke cid msg orig e out h⟩
  unfold handle handle_one_item
  cases ctx.message <;>
    simp [handle_list_eq_map, handle_one_item_eq_spec, Except.map]

/-- Witness for C2: the contained conversion at a concrete failing item. -/
theorem C2_exceptions_contained_witness :
    _handle_one_item cfgEx invokeRaises "cid1" reqId1 "orig" =
      Except.ok (some (mkErrorEnvelope (.int 1) "cid1" (exCode excBoom)
        (exMsg excBoom))) :=
  (C2_exceptions_contained cfgEx invokeRaises ctxSingleEx).2.2 "cid1" reqId1
    "orig" excBoom { id := .int 1 } rfl

/-- C3 counterexample: a request passing the version and method checks whose
backend invocation raises an unrecognized failure is answered with error
code `-32000`, not `-32603` as the claim states. -/
theorem C3_counterexample_code_is_32000 :
    itemOutcome cfgEx invokeRaises "cid1" reqId1 "orig" =
      some (mkErrorEnvelope (.int 1) "cid1" (-32000)
        "Message could not be handled") ∧
    decide ((-32000 : Int) = -32603) = false :=
  ⟨rfl, rfl⟩

/-- C3 amended: when the checks pass and the backend invocation raises, the
response envelope's code is the raised exception's own `code` if it is a
`JSONRPCException` (hence `-32603` exactly when an `InternalError` was
raised) and the generic fallback `-32000` otherwise — the dispatcher itself
never produces `-32603`. -/
theorem C3_amended_backend_failure_code (cfg : HandlerConfig)
    (invoke : InvokeFunc) (cid orig : String) (kvs : List (String × Value))
    (e : PyExc)
    (hver : pyEqStr (lookupD kvs "jsonrpc" .null) json_rpc_version_supported = true)
    (hmeth : can_handle cfg (lookupD kvs "method" .null) = true)
    (hinv : invoke (lookupD kvs "method" .null) (lookupD kvs "params" .null) =
      .error e) :
    itemOutcome cfg invoke cid (.obj kvs) orig =
      some (mkErrorEnvelope (lookupD kvs "id" .notGiven) cid (exCode e) (exMsg e)) := by
  rw [itemOutcome_eq_spec]
  simp [handleOneItemSpec, JSONRPCItem.from_dict, hver, hmeth, hinv]

/-- Witness for the amended C3 at a concrete unrecognized failure. -/
theorem C3_amended_backend_failure_code_witness :
    itemOutcome cfgEx invokeRaises "cid1" (.obj reqKvs1) "orig" =
      some (mkErrorEnvelope (lookupD reqKvs1 "id" .notGiven) "cid1"
        (exCode excBoom) (exMsg excBoom)) :=
  C3_amended_backend_failure_code cfgEx invokeRaises "cid1" "orig" reqKvs1
    excBoom rfl rfl rfl

/-- C4: every failure that is not a recognized JSON-RPC error kind yields
the generic fallback code `-32000` and the fixed generic message — the
envelope is the same whatever the internal exception text was, so that text
is never exposed. -/
theorem C4_unrecognized_failure_generic (cfg : HandlerConfig)
    (invoke : InvokeFunc) (cid orig : String) (msg : Value)
    (nm text : String) (out : ItemResponse)
    (h : handleOneItemAux cfg invoke cid msg orig =
      Except.error (.other nm text, out)) :
    itemOutcome cfg invoke cid msg orig =
      some (mkErrorEnvelope out.id cid (-32000) "Message could not be handled") := by
  unfold itemOutcome
  rw [handle_one_item_error_path cfg invoke cid msg orig _ out h]
  simp [exCode, exMsg]

/-- Witness for C4 at a concrete unrecognized backend failure. -/
theorem C4_unrecognized_failure_generic_witness :
    itemOutcome cfgEx invokeRaises "cid1" reqId1 "orig" =
      some (mkErrorEnvelope (.int 1) "cid1" (-32000)
        "Message could not be handled") :=
  C4_unrecognized_failure_generic cfgEx invokeRaises "cid1" "orig" reqId1
    "ValueError" "boom" { id := .int 1 } rfl

/-- C5: a notification (id key resolving to the `NotGiven` sentinel) whose
invocation succeeds produces no envelope, while every item whose handling
raises is answered with a serialized error envelope regardless of
`needs_response`. -/
theorem C5_notification_silence_failures_reported (cfg : HandlerConfig)
    (invoke : InvokeFunc) (cid orig : String) (kvs : List (String × Value))
    (v : Value)
    (hid : (lookupD kvs "id" .notGiven).isNotGiven = true)
    (hver : pyEqStr (lookupD kvs "jsonrpc" .null) json_rpc_version_supported = true)
    (hmeth : can_handle cfg (lookupD kvs "method" .null) = true)
    (hinv : invoke (lookupD kvs "method" .null) (lookupD kvs "params" .null) =
      .ok v) :
    itemOutcome cfg invoke cid (.obj kvs) orig = none ∧
    (∀ msg e out, handleOneItemAux cfg invoke cid msg orig = .error (e, out) →
        itemOutcome cfg invoke cid msg orig =
          some (mkErrorEnvelope out.id cid (exCode e) (exMsg e))) := by
  constructor
  · rw [itemOutcome_eq_spec]
    simp [handleOneItemSpec, JSONRPCItem.from_dict, hver, hmeth, hinv, hid]
  · intro msg e out h
    unfold itemOutcome
    rw [handle_one_item_error_path cfg invoke cid msg orig e out h]

/-- Witness for C5: a concrete successful notification is silent, a
concrete failing id-less item is still answered. -/
theorem C5_notification_silence_failures_reported_witness :
    itemOutcome cfgEx invokeOk "cid1" (.obj notifKvs) "orig" = none ∧
    itemOutcome cfgEx invokeOk "cid1" (.obj badVerKvs) "orig" =
      some (mkErrorEnvelope .notGiven "cid1" (exCode badVerExc)
        (exMsg badVerExc)) := by
  obtain ⟨h1, h2⟩ := C5_notification_silence_failures_reported cfgEx invokeOk
    "cid1" "orig" notifKvs (.int 42) rfl rfl rfl rfl
  exact ⟨h1, h2 (.obj badVerKvs) badVerExc { id := .notGiven } rfl⟩

/-- C6: any request object whose `jsonrpc` field differs from the string
`2.0` is answered with the `-32600` error envelope, for every whitelist and
every backend behaviour — the version check precedes the capability check
and the invocation. -/
theorem C6_version_mismatch_32600 (cfg : HandlerConfig) (invoke : InvokeFunc)
    (cid orig : String) (kvs : List (String × Value))
    (hver : pyEqStr (lookupD kvs "jsonrpc" .null) json_rpc_version_supported = false) :
    itemOutcome cfg invoke cid (.obj kvs) orig =
      some (mkErrorEnvelope (lookupD kvs "id" .notGiven) cid (-32600)
        (invalidVersionMsg (lookupD kvs "jsonrpc" .null) orig)) := by
  rw [itemOutcome_eq_spec]
  simp [handleOneItemSpec, JSONRPCItem.from_dict, hver]

/-- Witness for C6: version `1.0` is rejected even though the method is
whitelisted and the backend would succeed. -/
theorem C6_version_mismatch_32600_witness :
    itemOutcome cfgEx invokeOk "cid1" (.obj badVerKvs2) "orig" =
      some (mkErrorEnvelope (.int 2) "cid1" (-32600)
        (invalidVersionMsg (.str "1.0") "orig")) :=
  C6_version_mismatch_32600 cfgEx invokeOk "cid1" "orig" badVerKvs2 rfl

/-- C7: a single (non-batch) request object carrying an id key is always
answered with an envelope, and the envelope's `id` field equals the
request's id on the success path and on every failure path. -/
theorem C7_id_echoed (cfg : HandlerConfig) (invoke : InvokeFunc)
    (ctx : RequestContext) (kvs : List (String × Value))
    (hmsg : ctx.message = .obj kvs)
    (hid : (lookupD kvs "id" .notGiven).isNotGiven = false) :
    ∃ env, handle cfg invoke ctx = Except.ok (.single (some env)) ∧
      env.lookup? "id" = some (lookupD kvs "id" .notGiven) := by
  unfold handle handle_one_item
  rw [hmsg]
  rw [handle_one_item_eq_spec]
  simp only [handleOneItemSpec, JSONRPCItem.from_dict]
  by_cases hv : pyEqStr (lookupD kvs "jsonrpc" Value.null) json_rpc_version_supported
  case neg =>
    exact ⟨mkErrorEnvelope (lookupD kvs "id" Value.notGiven) ctx.cid (-32600)
      (invalidVersionMsg (lookupD kvs "jsonrpc" Value.null) ctx.orig_message),
      by simp [hv, Except.map], rfl⟩
  case pos =>
    by_cases hm : can_handle cfg (lookupD kvs "method" Value.null)
    case neg =>
      exact ⟨mkErrorEnvelope (lookupD kvs "id" Value.notGiven) ctx.cid (-32601)
        (methodNotFoundMsg (lookupD kvs "method" Value.null) ctx.orig_message),
        by simp [hv, hm, Except.map], rfl⟩
    case pos =>
      cases hinv : invoke (lookupD kvs "method" Value.null)
          (lookupD kvs "params" Value.null) with
      | error e =>
          exact ⟨mkErrorEnvelope (lookupD kvs "id" Value.notGiven) ctx.cid
            (exCode e) (exMsg e), by simp [hv, hm, hinv, Except.map], rfl⟩
      | ok v =>
          by_cases htr : v.truthy
          case pos =>
            exact ⟨mkResultEnvelope (lookupD kvs "id" Value.notGiven) v,
              by simp [hv, hm, hinv, hid, htr, Except.map], rfl⟩
          case neg =>
            exact ⟨mkErrorEnvelope (lookupD kvs "id" Value.notGiven) ctx.cid
              (-32000) "Message could not be handled",
              by simp [hv, hm, hinv, hid, htr, Except.map], rfl⟩

/-- Witness for C7 at a concrete single request with id `1`. -/
theorem C7_id_echoed_witness :
    ∃ env, handle cfgEx invokeOk ctxSingleEx = Except.ok (.single (some env)) ∧
      env.lookup? "id" = some (lookupD reqKvs1 "id" .notGiven) :=
  C7_id_echoed cfgEx invokeOk ctxSingleEx reqKvs1 rfl rfl

/-- C8 counterexample: a failing request whose id key is absent is answered
with an envelope whose `id` field holds the `NotGiven` sentinel — a plain
object distinct from `None` (`isNotGiven` separates them), so the envelope's
id is not null as the claim states. -/
theorem C8_counterexample_id_is_sentinel :
    (itemOutcome cfgEx invokeOk "cid1" (.obj badVerKvs) "orig").bind
        (fun env => env.lookup? "id") = some Value.notGiven ∧
    Value.notGiven.isNotGiven = true ∧
    Value.null.isNotGiven = false :=
  ⟨rfl, rfl, rfl⟩

/-- C8 amended: a failed item's envelope carries the captured `id` slot,
which is the request's `id` lookup (the given id, or the `NotGiven` sentinel
when the key is absent) for a dict request, and `None` only when parsing
failed before the id was copied (the item is not a dict). -/
theorem C8_amended_error_envelope_id (cfg : HandlerConfig)
    (invoke : InvokeFunc) (cid orig : String) (msg : Value) (e : PyExc)
    (out : ItemResponse)
    (h : handleOneItemAux cfg invoke cid msg orig = .error (e, out)) :
    itemOutcome cfg invoke cid msg orig =
      some (mkErrorEnvelope out.id cid (exCode e) (exMsg e)) ∧
    (∀ kvs, msg = .obj kvs → out.id = lookupD kvs "id" .notGiven) ∧
    (msg.isObj = false → out.id = .null) := by
  have hshape := aux_error_out cfg invoke cid msg orig e out h
  refine ⟨?_, hshape.2.2.1, hshape.2.2.2⟩
  unfold itemOutcome
  rw [handle_one_item_error_path cfg invoke cid msg orig e out h]

/-- Witness for the amended C8 at a concrete failing id-less request. -/
theorem C8_amended_error_envelope_id_witness :
    itemOutcome cfgEx invokeOk "cid1" (.obj badVerKvs) "orig" =
      some (mkErrorEnvelope .notGiven "cid1" (exCode badVerExc)
        (exMsg badVerExc)) :=
  (C8_amended_error_envelope_id cfgEx invokeOk "cid1" "orig" (.obj badVerKvs)
    badVerExc { id := .notGiven } rfl).1

/-- C9 counterexample: a notification whose checks pass and whose invocation
succeeds with the falsy `None` yields no envelope at all — not the `-32000`
error envelope the claim asserts for notifications. -/
theorem C9_counterexample_falsy_notification_silent :
    itemOutcome cfgEx invokeFalsy "cid1" (.obj notifKvs) "orig" = none :=
  rfl

/-- C9 amended: a successful invocation returning a falsy value never
produces a success envelope — when the item carries an id, serialization
takes the error branch and the item is answered with the generic `-32000`
error envelope; when the item is a notification, nothing is returned at
all. -/
theorem C9_amended_falsy_result (cfg : HandlerConfig) (invoke : InvokeFunc)
    (cid orig : String) (kvs : List (String × Value)) (v : Value)
    (hver : pyEqStr (lookupD kvs "jsonrpc" .null) json_rpc_version_supported = true)
    (hmeth : can_handle cfg (lookupD kvs "method" .null) = true)
    (hinv : invoke (lookupD kvs "method" .null) (lookupD kvs "params" .null) =
      .ok v)
    (hfalsy : v.truthy = false) :
    ((lookupD kvs "id" .notGiven).isNotGiven = false →
      itemOutcome cfg invoke cid (.obj kvs) orig =
        some (mkErrorEnvelope (lookupD kvs "id" .notGiven) cid (-32000)
          "Message could not be handled")) ∧
    ((lookupD kvs "id" .notGiven).isNotGiven = true →
      itemOutcome cfg invoke cid (.obj kvs) orig = none) := by
  constructor <;> intro hid <;> rw [itemOutcome_eq_spec] <;>
    simp [handleOneItemSpec, JSONRPCItem.from_dict, hver, hmeth, hinv, hid, hfalsy]

/-- Witness for the amended C9: a falsy result with an id is answered with
the `-32000` envelope, without an id it is silently dropped. -/
theorem C9_amended_falsy_result_witness :
    itemOutcome cfgEx invokeFalsy "cid1" (.obj reqKvs1) "orig" =
      some (mkErrorEnvelope (.int 1) "cid1" (-32000)
        "Message could not be handled") ∧
    itemOutcome cfgEx invokeFalsy "cid1" (.obj notifKvs) "orig" = none :=
  ⟨(C9_amended_falsy_result cfgEx invokeFalsy "cid1" "orig" reqKvs1 .null
      rfl rfl rfl rfl).1 rfl,
   (C9_amended_falsy_result cfgEx invokeFalsy "cid1" "orig" notifKvs .null
      rfl rfl rfl rfl).2 rfl⟩

/-- Processing any first entry of a user-supplied `order_by` raises: a
non-dict entry has no `items`, a dict without exactly one pair is invalid
config, and a single-pair dict reaches the read of
`self.order_by.columns_allowed`, an attribute `OrderBy` does not define. -/
theorem getOrderByLoop_cons_error (ob : OrderBy) (item : Value)
    (rest : List Value) :
    ∃ e, getOrderByLoop ob (item :: rest) = .error e := by
  cases item with
  | obj kvs =>
      match kvs with
      | [] => exact ⟨_, rfl⟩
      | [(c, d)] => exact ⟨_, rfl⟩
      | p :: q :: tl => exact ⟨_, rfl⟩
  | null => exact ⟨_, rfl⟩
  | notGiven => exact ⟨_, rfl⟩
  | bool b => exact ⟨_, rfl⟩
  | int n => exact ⟨_, rfl⟩
  | str s => exact ⟨_, rfl⟩
  | list xs => exact ⟨_, rfl⟩

/-- Any truthy `order_by` value makes `_get_order_by` raise: a truthy
non-iterable raises `TypeError`, and a truthy iterable has a first element,
on which the loop raises. -/
theorem get_order_by_truthy_error (ob_raw : Value)
    (htr : ob_raw.truthy = true) :
    ∃ e, _get_order_by orderByInstance ob_raw = .error e := by
  cases ob_raw with
  | null => simp [Value.truthy] at htr
  | notGiven => exact ⟨_, rfl⟩
  | bool b => exact ⟨_, rfl⟩
  | int n => exact ⟨_, rfl⟩
  | str s =>
      cases hd : s.data with
      | nil =>
          exfalso
          have hempty : s = "" := by
            cases s with
            | mk l =>
                change l = [] at hd
                subst hd
                rfl
          subst hempty
          simp [Value.truthy] at htr
      | cons c cs =>
          obtain ⟨e, he⟩ := getOrderByLoop_cons_error orderByInstance
            (.str (String.mk [c])) (cs.map (fun c2 => .str (String.mk [c2])))
          refine ⟨e, ?_⟩
          simp [_get_order_by, pyIter, String.toList, hd, he]
  | list xs =>
      cases xs with
      | nil => simp [Value.truthy] at htr
      | cons x tl =>
          obtain ⟨e, he⟩ := getOrderByLoop_cons_error orderByInstance x tl
          exact ⟨e, by simp [_get_order_by, pyIter, he]⟩
  | obj kvs =>
      cases kvs with
      | nil => simp [Value.truthy] at htr
      | cons p tl =>
          obtain ⟨e, he⟩ := getOrderByLoop_cons_error orderByInstance
            (.str p.1) (tl.map (fun q => .str q.1))
          exact ⟨e, by simp [_get_order_by, pyIter, he]⟩

/-- C10: a search configuration carrying a non-empty `order_by` list makes
`SSOSearch.search` raise instead of ordering the results (the loop reads the
undefined attribute `columns_allowed`), and consequently every query that
`search` does produce carries the default ordering. -/
theorem C10_nonempty_order_by_raises (config : Value) :
    (∀ kvs items, config = .obj kvs →
        lookupD kvs "order_by" .null = .list items → items.isEmpty = false →
        ∃ e, SSOSearch.search config = .error e) ∧
    (∀ q, SSOSearch.search config = .ok q →
        q.order_by = orderByInstance.default) := by
  constructor
  · intro kvs items hcfg hob hne
    subst hcfg
    unfold SSOSearch.search
    cases hw : _get_where (.obj kvs) with
    | error e => exact ⟨e, rfl⟩
    | ok w =>
        have hg : pyGet (.obj kvs) "order_by" = .ok (.list items) := by
          simp [pyGet, hob]
        have htr : (Value.list items).truthy = true := by
          simp [Value.truthy, hne]
        obtain ⟨e, he⟩ := get_order_by_truthy_error (.list items) htr
        exact ⟨e, by simp [hg, htr, he]⟩
  · intro q hq
    unfold SSOSearch.search at hq
    split at hq
    case h_1 => exact absurd hq (by simp)
    case h_2 w hw =>
      split at hq
      case h_1 => exact absurd hq (by simp)
      case h_2 ob_raw hg =>
        by_cases htr : ob_raw.truthy
        case pos =>
          obtain ⟨e, he⟩ := get_order_by_truthy_error ob_raw htr
          rw [if_pos htr, he] at hq
          exact absurd hq (by simp)
        case neg =>
          rw [if_neg htr] at hq
          simp only [Except.ok.injEq] at hq
          rw [← hq]

/-- Witness for C10: a concrete config with a one-entry `order_by` makes the
search raise, and a concrete username search yields the default ordering. -/
theorem C10_nonempty_order_by_raises_witness :
    (∃ e, SSOSearch.search cfgW1 = .error e) ∧
    orderByInstance.default = orderByInstance.default := by
  constructor
  · exact (C10_nonempty_order_by_raises cfgW1).1
      [("order_by", .list [.obj [("display_name", .str "asc")]])]
      [.obj [("display_name", .str "asc")]] rfl rfl rfl
  · exact (C10_nonempty_order_by_raises cfgW2).2
      { order_by := orderByInstance.default,
        whereClause := .colEq "username" (.str "u") } rfl

end Zato
